import Mathlib

/-!
Verification of the Algoooeee web service (src/app/web.py).

The file shallowly embeds the FastAPI route handlers of app/web.py.
The market-data client (app/app.py, UpstoxClient) and the prediction
engine (core/prediction.py, Prediction) live outside the provided
sources, so the routes are parameterized over an abstract fetch
function and an abstract prediction engine: each either succeeds or
fails with a description string, exactly the interface the route code
consumes.  Candle cells are a type parameter since the routes never
inspect them.
-/

/-- Inbound request body with pydantic defaults already applied
(web.py lines 21-26). -/
structure StockPredictionRequest where
  isin : String
  start_date : String
  end_date : String
  interval : String
  count : Int
deriving Repr, DecidableEq

/-- Raw inbound JSON body before pydantic validation: `interval` and
`count` may be absent. -/
structure RawStockPredictionRequest where
  isin : String
  start_date : String
  end_date : String
  interval : Option String
  count : Option Int
deriving Repr, DecidableEq

/-- Pydantic model validation of the raw body: absent `interval`
defaults to "day", absent `count` defaults to 1 (web.py lines 25-26). -/
def parseRequest (r : RawStockPredictionRequest) : StockPredictionRequest :=
  { isin := r.isin
    start_date := r.start_date
    end_date := r.end_date
    interval := r.interval.getD "day"
    count := r.count.getD 1 }

/-- Outbound body of the historical-candles route (web.py lines 28-31).
The `data` field is typed List (List alpha): a list of rows of any
length, mirroring the List[List] annotation with no row-shape check. -/
structure HistoricalCandleResponse (α : Type) where
  isin : String
  data : List (List α)
  timestamp : String
deriving Repr, DecidableEq

/-- Outbound body of the predict route (web.py lines 33-36). -/
structure PredictionResponse where
  isin : String
  predicted_high : Int
  confidence : String
deriving Repr, DecidableEq

/-- An HTTPException as raised by the handlers: an HTTP status code
plus a detail string. -/
structure HTTPException where
  status_code : Nat
  detail : String
deriving Repr, DecidableEq

/-- Health-check body (web.py lines 59-62). -/
structure HealthResponse where
  status : String
  api_configured : Bool
deriving Repr, DecidableEq

/-- One entry of the stock reference catalog. -/
structure StockReference where
  name : String
  isin : String
deriving Repr, DecidableEq

/-- Body of GET /api/stocks: the catalog wrapped under a single
`stocks` key. -/
structure StocksResponse where
  stocks : List StockReference
deriving Repr, DecidableEq

/-- The fetch operation of the market-data client, as the routes
consume it: given isin, start_date, end_date, interval and count it
returns candle rows or fails with a description string
(the DataFetchFailed description). -/
abbrev FetchFn (α : Type) : Type :=
  String → String → String → String → Int → Except String (List (List α))

/-- The prediction engine as the predict route consumes it
(DataFrame assembly, feature engineering, training, prediction):
from the candle rows it produces one predicted high value or fails
with a description string. -/
abbrev EngineFn (α : Type) : Type :=
  List (List α) → Except String Int

/-- Failure modes of client construction at process start: Python
exception types, distinguishing ValueError from every other type
(web.py lines 39-42 catch only ValueError). -/
inductive InitError where
  | valueError (msg : String)
  | otherError (msg : String)
deriving Repr, DecidableEq

/-- Module-level client initialization (web.py lines 39-42): a
ValueError from the constructor leaves the handle as None and startup
succeeds; any other exception propagates and startup fails. -/
def init_client {γ : Type} (construct : Except InitError γ) :
    Except InitError (Option γ) :=
  match construct with
  | Except.ok c => Except.ok (some c)
  | Except.error (InitError.valueError _) => Except.ok none
  | Except.error e => Except.error e

/-- GET /health (web.py lines 56-62): constant status string plus
whether the client handle is non-None.  Pure function of the handle,
no fetch parameter at all. -/
def health {γ : Type} (client : Option γ) : HealthResponse :=
  { status := "healthy", api_configured := client.isSome }

/-- Rendering of str(HTTPException) by the web framework: the status
code and the detail joined by a colon, as produced when the broad
except clause stringifies a caught HTTPException. -/
def httpExceptionStr (status_code : Nat) (detail : String) : String :=
  toString status_code ++ ": " ++ detail

/-- Detail text of the 404 raised inside the predict route when the
fetched candle list is empty (web.py lines 135-139). -/
def notFoundDetail : String :=
  "No data found for the given ISIN and date range"

/-- POST /api/historical-candles (web.py lines 64-102).  The Bool
component records whether the client fetch operation was invoked.
A missing client short-circuits to 503; a fetch failure is caught and
re-raised as a 400 embedding the description; a fetch success, empty
or not, is echoed back with the request isin and end_date. -/
def get_historical_candles {α : Type} (client : Option (FetchFn α))
    (request : StockPredictionRequest) :
    Except HTTPException (HistoricalCandleResponse α) × Bool :=
  match client with
  | none =>
      (Except.error
        { status_code := 503
          detail := "Upstox API client not configured. Set UPSTOX_API_TOKEN in .env" },
       false)
  | some fetch =>
      match fetch request.isin request.start_date request.end_date
          request.interval request.count with
      | Except.ok candles =>
          (Except.ok
            { isin := request.isin
              data := candles
              timestamp := request.end_date },
           true)
      | Except.error e =>
          (Except.error
            { status_code := 400
              detail := "Error fetching candles: " ++ e },
           true)

/-- POST /api/predict (web.py lines 104-160).  The Bool component
records whether the client fetch operation was invoked.  A missing
client short-circuits to 503.  Inside the try block: a fetch failure,
the HTTPException(404) raised on an empty candle list, and an engine
failure are all caught by the broad except clause and re-raised as a
400 whose detail embeds the stringified original failure.  On success
the confidence label is "high" exactly when the predicted value is
strictly positive. -/
def predict_stock {α : Type} (client : Option (FetchFn α))
    (engine : EngineFn α) (request : StockPredictionRequest) :
    Except HTTPException PredictionResponse × Bool :=
  match client with
  | none =>
      (Except.error
        { status_code := 503, detail := "Upstox API client not configured" },
       false)
  | some fetch =>
      match fetch request.isin request.start_date request.end_date
          request.interval request.count with
      | Except.error e =>
          (Except.error
            { status_code := 400, detail := "Prediction error: " ++ e },
           true)
      | Except.ok candles =>
          if candles.isEmpty then
            (Except.error
              { status_code := 400
                detail := "Prediction error: " ++ httpExceptionStr 404 notFoundDetail },
             true)
          else
            match engine candles with
            | Except.error e =>
                (Except.error
                  { status_code := 400, detail := "Prediction error: " ++ e },
                 true)
            | Except.ok p =>
                (Except.ok
                  { isin := request.isin
                    predicted_high := p
                    confidence := if 0 < p then "high" else "moderate" },
                 true)

/-- GET /api/stocks (web.py lines 162-191): the hard-coded reference
catalog, verbatim, wrapped under the single `stocks` key.  A constant:
every call returns this same value. -/
def get_stock_list : StocksResponse :=
  { stocks :=
    [ { name := "Reliance Industries", isin := "INE002A01018" },
      { name := "Bharti Airtel", isin := "INE397D01024" },
      { name := "TCS", isin := "INE467B01029" },
      { name := "ICICI Bank", isin := "INE090A01021" },
      { name := "State Bank of India", isin := "INE062A01020" },
      { name := "Infosys", isin := "INE009A01021" },
      { name := "Hindustan Unilever", isin := "INE030A01027" },
      { name := "ITC", isin := "INE154A01025" },
      { name := "Mahindra & Mahindra", isin := "INE101A01026" },
      { name := "Kotak Mahindra Bank", isin := "INE237A01028" },
      { name := "HCL Technologies", isin := "INE860A01027" },
      { name := "Sun Pharma", isin := "INE044A01036" },
      { name := "Axis Bank", isin := "INE238A01034" },
      { name := "UltraTech Cement", isin := "INE481G01011" },
      { name := "Titan Company", isin := "INE280A01028" },
      { name := "NTPC", isin := "INE733E01010" },
      { name := "Asian Paints", isin := "INE021A01026" },
      { name := "Tata Steel", isin := "INE081A01020" },
      { name := "Tata Consumer Products", isin := "INE192A01025" },
      { name := "Wipro", isin := "INE075A01022" },
      { name := "Adani Enterprises", isin := "INE423A01024" },
      { name := "Adani Ports", isin := "INE742F01042" } ] }

/-- The Reference Catalog as listed in section 6 of the specification,
as bare name-to-ISIN pairs, written from the words of the
specification for comparison against the catalog in the code. -/
def specReferenceCatalog : List (String × String) :=
  [ ("Reliance Industries", "INE002A01018"),
    ("Bharti Airtel", "INE397D01024"),
    ("TCS", "INE467B01029"),
    ("ICICI Bank", "INE090A01021"),
    ("State Bank of India", "INE062A01020"),
    ("Infosys", "INE009A01021"),
    ("Hindustan Unilever", "INE030A01027"),
    ("ITC", "INE154A01025"),
    ("Mahindra & Mahindra", "INE101A01026"),
    ("Kotak Mahindra Bank", "INE237A01028"),
    ("HCL Technologies", "INE860A01027"),
    ("Sun Pharma", "INE044A01036"),
    ("Axis Bank", "INE238A01034"),
    ("UltraTech Cement", "INE481G01011"),
    ("Titan Company", "INE280A01028"),
    ("NTPC", "INE733E01010"),
    ("Asian Paints", "INE021A01026"),
    ("Tata Steel", "INE081A01020"),
    ("Tata Consumer Products", "INE192A01025"),
    ("Wipro", "INE075A01022"),
    ("Adani Enterprises", "INE423A01024"),
    ("Adani Ports", "INE742F01042") ]

/-- C2: for every request body, a None client handle makes both POST
/api/historical-candles and POST /api/predict respond 503 immediately,
and the fetch-invoked flag is false: the client fetch is never
called. -/
theorem unavailable_client_short_circuits {α : Type}
    (engine : EngineFn α) (r : StockPredictionRequest) :
    get_historical_candles (none : Option (FetchFn α)) r =
      (Except.error
        { status_code := 503
          detail := "Upstox API client not configured. Set UPSTOX_API_TOKEN in .env" },
       false) ∧
    predict_stock (none : Option (FetchFn α)) engine r =
      (Except.error
        { status_code := 503, detail := "Upstox API client not configured" },
       false) := by
  exact ⟨rfl, rfl⟩

/-- C3: with a configured client whose fetch returns N rows, the
historical-candles route succeeds with data exactly those rows in
order, isin echoing the request isin, and timestamp echoing the
request end_date. -/
theorem candle_round_trip {α : Type} (fetch : FetchFn α)
    (r : StockPredictionRequest) (rows : List (List α))
    (h : fetch r.isin r.start_date r.end_date r.interval r.count =
      Except.ok rows) :
    get_historical_candles (some fetch) r =
      (Except.ok
        { isin := r.isin, data := rows, timestamp := r.end_date },
       true) := by
  simp only [get_historical_candles]
  rw [h]

/-- Witness for C3 at a concrete fetch result of two rows. -/
theorem candle_round_trip_witness :
    get_historical_candles
      (some (fun _ _ _ _ _ =>
        Except.ok [[1, 2, 3, 4, 5, 6, 7], [8, 9, 10, 11, 12, 13, 14]] :
          FetchFn Int))
      { isin := "INE002A01018", start_date := "2024-01-01"
        end_date := "2024-02-01", interval := "day", count := 1 } =
      (Except.ok
        { isin := "INE002A01018"
          data := [[1, 2, 3, 4, 5, 6, 7], [8, 9, 10, 11, 12, 13, 14]]
          timestamp := "2024-02-01" },
       true) :=
  candle_round_trip
    (fun _ _ _ _ _ =>
      Except.ok [[1, 2, 3, 4, 5, 6, 7], [8, 9, 10, 11, 12, 13, 14]])
    { isin := "INE002A01018", start_date := "2024-01-01"
      end_date := "2024-02-01", interval := "day", count := 1 }
    [[1, 2, 3, 4, 5, 6, 7], [8, 9, 10, 11, 12, 13, 14]] rfl

/-- C5: GET /api/stocks returns, under the single stocks key, exactly
22 entries whose name and ISIN pairs match the catalog of section 6 of
the specification, in that order, Reliance Industries first and Adani
Ports last; as a constant it is identical across repeated calls. -/
theorem stock_list_stability :
    get_stock_list.stocks.length = 22 ∧
    get_stock_list.stocks.map (fun s => (s.name, s.isin)) =
      specReferenceCatalog := by
  exact ⟨rfl, rfl⟩

/-- C6: GET /health always returns status healthy without any fetch
parameter in scope, with api_configured true exactly when the client
handle holds a constructed client; as a pure function of the fixed
handle, its value cannot change within a process lifetime. -/
theorem health_reflects_configuration {γ : Type} (client : Option γ) :
    (health client).status = "healthy" ∧
    ((health client).api_configured = true ↔ ∃ c, client = some c) := by
  refine ⟨rfl, ?_⟩
  simp [health, Option.isSome_iff_exists]

/-- C9: client construction at startup is guarded by a handler
catching only ValueError: a ValueError yields a None handle and
startup succeeds, any other exception type propagates and startup
fails, and a successful construction yields the client handle. -/
theorem init_client_catches_only_value_error {γ : Type}
    (msg : String) (c : γ) :
    init_client (Except.error (InitError.valueError msg)) =
      Except.ok (none : Option γ) ∧
    init_client (Except.error (InitError.otherError msg)) =
      (Except.error (InitError.otherError msg) :
        Except InitError (Option γ)) ∧
    init_client (Except.ok c) = Except.ok (some c) := by
  exact ⟨rfl, rfl, rfl⟩

/-- C1: when fetch returns an empty candle sequence, the predict route
responds 400, not 404, with the original not-found wording embedded
inside the generic prediction-error message, while the
historical-candles route succeeds with data equal to the empty list. -/
theorem empty_fetch_predict_vs_historical {α : Type} (fetch : FetchFn α)
    (engine : EngineFn α) (r : StockPredictionRequest)
    (h : fetch r.isin r.start_date r.end_date r.interval r.count =
      Except.ok ([] : List (List α))) :
    predict_stock (some fetch) engine r =
      (Except.error
        { status_code := 400
          detail := "Prediction error: " ++ httpExceptionStr 404 notFoundDetail },
       true) ∧
    ("Prediction error: " ++ httpExceptionStr 404 notFoundDetail) =
      "Prediction error: 404: No data found for the given ISIN and date range" ∧
    get_historical_candles (some fetch) r =
      (Except.ok { isin := r.isin, data := [], timestamp := r.end_date },
       true) := by
  refine ⟨?_, rfl, ?_⟩
  · simp only [predict_stock]
    rw [h]
    rfl
  · simp only [get_historical_candles]
    rw [h]

/-- Witness for C1 with a concrete client whose fetch yields zero
rows. -/
theorem empty_fetch_predict_vs_historical_witness :
    predict_stock
      (some (fun _ _ _ _ _ => Except.ok [] : FetchFn Int))
      (fun _ => Except.ok 0)
      { isin := "INE002A01018", start_date := "2024-01-01"
        end_date := "2024-02-01", interval := "day", count := 1 } =
      (Except.error
        { status_code := 400
          detail := "Prediction error: " ++ httpExceptionStr 404 notFoundDetail },
       true) ∧
    ("Prediction error: " ++ httpExceptionStr 404 notFoundDetail) =
      "Prediction error: 404: No data found for the given ISIN and date range" ∧
    get_historical_candles
      (some (fun _ _ _ _ _ => Except.ok [] : FetchFn Int))
      { isin := "INE002A01018", start_date := "2024-01-01"
        end_date := "2024-02-01", interval := "day", count := 1 } =
      (Except.ok
        { isin := "INE002A01018", data := [], timestamp := "2024-02-01" },
       true) :=
  empty_fetch_predict_vs_historical
    (fun _ _ _ _ _ => Except.ok [])
    (fun _ => Except.ok 0)
    { isin := "INE002A01018", start_date := "2024-01-01"
      end_date := "2024-02-01", interval := "day", count := 1 }
    rfl

/-- C4: every successful predict response carries confidence "high"
exactly when the predicted high is strictly positive, and otherwise
"moderate"; no third value occurs. -/
theorem confidence_labeling {α : Type} (fetch : FetchFn α)
    (engine : EngineFn α) (r : StockPredictionRequest)
    (resp : PredictionResponse) (b : Bool)
    (h : predict_stock (some fetch) engine r = (Except.ok resp, b)) :
    (resp.confidence = "high" ↔ 0 < resp.predicted_high) ∧
    (resp.confidence = "high" ∨ resp.confidence = "moderate") := by
  simp only [predict_stock] at h
  rcases hf : fetch r.isin r.start_date r.end_date r.interval r.count
    with e | candles
  · rw [hf] at h
    simp at h
  · rw [hf] at h
    by_cases he : candles.isEmpty = true
    · simp [he] at h
    · simp only [he, if_false, Bool.false_eq_true] at h
      rcases hg : engine candles with e | p
      · rw [hg] at h
        simp at h
      · rw [hg] at h
        simp only [Prod.mk.injEq, Except.ok.injEq] at h
        obtain ⟨hresp, hb⟩ := h
        subst hresp
        by_cases hp : 0 < p
        · simp [hp]
        · simp [hp]

/-- Witness for C4 at a concrete successful prediction. -/
theorem confidence_labeling_witness :
    ((PredictionResponse.mk "INE467B01029" 5 "high").confidence = "high" ↔
      0 < (PredictionResponse.mk "INE467B01029" 5 "high").predicted_high) ∧
    ((PredictionResponse.mk "INE467B01029" 5 "high").confidence = "high" ∨
      (PredictionResponse.mk "INE467B01029" 5 "high").confidence = "moderate") :=
  confidence_labeling
    (fun _ _ _ _ _ => Except.ok [[0, 0, 0, 0, 0, 0, 0]])
    (fun _ => Except.ok 5)
    { isin := "INE467B01029", start_date := "2024-01-01"
      end_date := "2024-02-01", interval := "day", count := 1 }
    (PredictionResponse.mk "INE467B01029" 5 "high") true rfl

/-- C7: a fetch failure with any description makes the
historical-candles route answer 400 with the description embedded
after the fetching-error prefix, and the predict route answer 400 with
the description embedded after the prediction-error prefix; neither a
500 nor a success is possible on this path. -/
theorem fetch_failure_surfaces_as_400 {α : Type} (fetch : FetchFn α)
    (engine : EngineFn α) (r : StockPredictionRequest) (msg : String)
    (h : fetch r.isin r.start_date r.end_date r.interval r.count =
      Except.error msg) :
    get_historical_candles (some fetch) r =
      (Except.error
        { status_code := 400, detail := "Error fetching candles: " ++ msg },
       true) ∧
    predict_stock (some fetch) engine r =
      (Except.error
        { status_code := 400, detail := "Prediction error: " ++ msg },
       true) := by
  constructor
  · simp only [get_historical_candles]
    rw [h]
  · simp only [predict_stock]
    rw [h]

/-- Witness for C7 with a concrete timeout-style failure. -/
theorem fetch_failure_surfaces_as_400_witness :
    get_historical_candles
      (some (fun _ _ _ _ _ => Except.error "Connection timed out" : FetchFn Int))
      { isin := "INE009A01021", start_date := "2024-01-01"
        end_date := "2024-02-01", interval := "day", count := 1 } =
      (Except.error
        { status_code := 400
          detail := "Error fetching candles: " ++ "Connection timed out" },
       true) ∧
    predict_stock
      (some (fun _ _ _ _ _ => Except.error "Connection timed out" : FetchFn Int))
      (fun _ => Except.ok 0)
      { isin := "INE009A01021", start_date := "2024-01-01"
        end_date := "2024-02-01", interval := "day", count := 1 } =
      (Except.error
        { status_code := 400
          detail := "Prediction error: " ++ "Connection timed out" },
       true) :=
  fetch_failure_surfaces_as_400
    (fun _ _ _ _ _ => Except.error "Connection timed out")
    (fun _ => Except.ok 0)
    { isin := "INE009A01021", start_date := "2024-01-01"
      end_date := "2024-02-01", interval := "day", count := 1 }
    "Connection timed out" rfl

/-- C8: a raw body omitting interval and count parses to the same
request as one specifying interval "day" and count 1, so the fetch
receives the defaulted values and both routes behave identically on
the two bodies, for every client and engine. -/
theorem default_field_values {α : Type} (i s e : String)
    (client : Option (FetchFn α)) (engine : EngineFn α) :
    parseRequest
        { isin := i, start_date := s, end_date := e
          interval := none, count := none } =
      parseRequest
        { isin := i, start_date := s, end_date := e
          interval := some "day", count := some 1 } ∧
    (parseRequest
      { isin := i, start_date := s, end_date := e
        interval := none, count := none }).interval = "day" ∧
    (parseRequest
      { isin := i, start_date := s, end_date := e
        interval := none, count := none }).count = 1 ∧
    get_historical_candles client
        (parseRequest
          { isin := i, start_date := s, end_date := e
            interval := none, count := none }) =
      get_historical_candles client
        (parseRequest
          { isin := i, start_date := s, end_date := e
            interval := some "day", count := some 1 }) ∧
    predict_stock client engine
        (parseRequest
          { isin := i, start_date := s, end_date := e
            interval := none, count := none }) =
      predict_stock client engine
        (parseRequest
          { isin := i, start_date := s, end_date := e
            interval := some "day", count := some 1 }) := by
  exact ⟨rfl, rfl, rfl, rfl, rfl⟩

/-- C10: the historical-candles route validates no row shape: any row
list the fetch returns, even one containing a row without exactly 7
fields, is echoed back unchanged in the data field. -/
theorem no_row_shape_validation {α : Type} (fetch : FetchFn α)
    (r : StockPredictionRequest) (rows : List (List α))
    (_hshape : ∃ row ∈ rows, row.length ≠ 7)
    (h : fetch r.isin r.start_date r.end_date r.interval r.count =
      Except.ok rows) :
    get_historical_candles (some fetch) r =
      (Except.ok { isin := r.isin, data := rows, timestamp := r.end_date },
       true) := by
  simp only [get_historical_candles]
  rw [h]

/-- Witness for C10 with a 3-field row. -/
theorem no_row_shape_validation_witness :
    (∃ row ∈ [[(1 : Int), 2, 3]], row.length ≠ 7) ∧
    get_historical_candles
      (some (fun _ _ _ _ _ => Except.ok [[1, 2, 3]] : FetchFn Int))
      { isin := "INE154A01025", start_date := "2024-01-01"
        end_date := "2024-02-01", interval := "day", count := 1 } =
      (Except.ok
        { isin := "INE154A01025", data := [[1, 2, 3]]
          timestamp := "2024-02-01" },
       true) :=
  ⟨by decide,
   no_row_shape_validation
    (fun _ _ _ _ _ => Except.ok [[1, 2, 3]])
    { isin := "INE154A01025", start_date := "2024-01-01"
      end_date := "2024-02-01", interval := "day", count := 1 }
    [[1, 2, 3]] (by decide) rfl⟩
